import Mathlib

/-!
Verification of the resource-pool, session-ledger, retry, recovery-policy and
monitoring components of the gologin-automation microservice.

The Lean definitions below are shallow embeddings of the Python sources:
- `GoLoginPool` embeds `app/services/gologin/service.py` (`GoLoginService.start_profile`,
  `GoLoginService.stop_profile`) and `app/services/profile_manager.py`
  (`ProfileManager.start_profile`).
- `Retry` embeds `app/utils/retry.py` (`GOLOGIN_RETRY`, `retry_gologin_api`) together
  with the tenacity retry loop and the httpx exception hierarchy it matches on.
- `Ledger` embeds the `AuthorizationSession` lifecycle: creation and completion in
  `app/api/routes.py` (`authorize_account`), the timeout transition in
  `app/services/workers/cleanup_worker.py` (`CleanupWorker._cleanup_iteration`),
  and revocation in `app/services/authorization.py` (`revoke_authorization`).
- `Challenge` models `IntegratedCloudflareProxyHandler.handle_persistent_challenge`
  from the spec (its module is not among the provided sources; only its tests are).
- `Monitor` embeds `app/services/workers/monitor_worker.py`
  (`MonitorWorker.update_thresholds`).

External effects (HTTP calls to the GoLogin provider, proxy rotation, profile
updates) are passed in as explicit outcome parameters; each embedded operation
additionally reports how many provider calls it issued, so that claims about
"no second provider call" are directly statable.
-/

namespace GoLoginPool

/-- Connection info recorded for an active profile: the `profile_info` dict built in
`GoLoginService.start_profile` (service.py lines 155-160). -/
structure ProfileInfo where
  wsEndpoint : Option String
  port : Option Nat
  startedAt : Int
deriving Repr, DecidableEq

/-- In-memory pool state shared by `GoLoginService` and `ProfileManager`:
the configured capacity `max_concurrent_profiles` and the `active_profiles`
dict (modelled as an association list in insertion order). -/
structure Pool where
  maxConcurrent : Nat
  active : List (String × ProfileInfo)
deriving Repr, DecidableEq

/-- `len(self.active_profiles)`, as returned by `get_active_profiles_count`. -/
def Pool.activeCount (s : Pool) : Nat :=
  s.active.length

/-- `profile_id in self.active_profiles`. -/
def Pool.isActive (s : Pool) (pid : String) : Bool :=
  s.active.any (fun e => e.1 == pid)

/-- `self.active_profiles[profile_id]` when present. -/
def Pool.lookup (s : Pool) (pid : String) : Option ProfileInfo :=
  (s.active.find? (fun e => e.1 == pid)).map (fun e => e.2)

/-- The pool with capacity `cap` and no active profiles, as after `__init__`. -/
def initPool (cap : Nat) : Pool :=
  ⟨cap, []⟩

/-- Result of one `start_profile` call. -/
inductive StartResult
  | ok (info : ProfileInfo)
  | limitError
  | apiError
deriving Repr, DecidableEq

/-- Post-state, result, and number of provider start calls issued by one
`start_profile` call. -/
structure StartOutcome where
  pool : Pool
  result : StartResult
  providerCalls : Nat
deriving Repr, DecidableEq

/-- `GoLoginService.start_profile` (service.py lines 125-185), with the provider
POST outcome passed in as `providerOk`/`info`: if the profile is already active
the stored entry is returned with no provider call; otherwise, if
`len(active_profiles) >= max_concurrent`, `ConcurrentProfileLimitException` is
raised; otherwise the provider is called and on success the new entry is
recorded, while on an HTTP/transport failure `GoLoginAPIException` is raised
and nothing is recorded. -/
def startProfile (s : Pool) (pid : String) (providerOk : Bool) (info : ProfileInfo) :
    StartOutcome :=
  match s.lookup pid with
  | some existing => ⟨s, .ok existing, 0⟩
  | none =>
    if s.maxConcurrent ≤ s.active.length then
      ⟨s, .limitError, 0⟩
    else if providerOk then
      ⟨{ s with active := s.active ++ [(pid, info)] }, .ok info, 1⟩
    else
      ⟨s, .apiError, 1⟩

/-- `ProfileManager.start_profile` (profile_manager.py lines 52-75): identical to
`GoLoginService.start_profile` except that it performs no concurrent-limit
check before inserting. -/
def pmStartProfile (s : Pool) (pid : String) (providerOk : Bool) (info : ProfileInfo) :
    StartOutcome :=
  match s.lookup pid with
  | some existing => ⟨s, .ok existing, 0⟩
  | none =>
    if providerOk then
      ⟨{ s with active := s.active ++ [(pid, info)] }, .ok info, 1⟩
    else
      ⟨s, .apiError, 1⟩

/-- Post-state, boolean result, and number of provider stop calls issued by one
`stop_profile` call. -/
structure StopOutcome where
  pool : Pool
  result : Bool
  providerCalls : Nat
deriving Repr, DecidableEq

/-- `GoLoginService.stop_profile` (service.py lines 189-232; `ProfileManager.stop_profile`
behaves identically): if the profile is not active, return `True` with no provider
call; otherwise call the provider stop endpoint, and on success delete the entry and
return `True`, while on any exception return `False` — the entry is deleted only
inside the success path, so a failed stop leaves it in `active_profiles`. -/
def stopProfile (s : Pool) (pid : String) (providerOk : Bool) : StopOutcome :=
  if s.isActive pid then
    if providerOk then
      ⟨{ s with active := s.active.filter (fun e => !(e.1 == pid)) }, true, 1⟩
    else
      ⟨s, false, 1⟩
  else
    ⟨s, true, 0⟩

/-- One observable pool operation: a `start_profile` or `stop_profile` call with
its provider outcome. -/
inductive PoolOp
  | start (pid : String) (providerOk : Bool) (info : ProfileInfo)
  | stop (pid : String) (providerOk : Bool)
deriving Repr, DecidableEq

/-- Effect of one operation on the pool state of `GoLoginService`. -/
def applyOp (s : Pool) (op : PoolOp) : Pool :=
  match op with
  | .start pid providerOk info => (startProfile s pid providerOk info).pool
  | .stop pid providerOk => (stopProfile s pid providerOk).pool

/-- Run a sequence of `GoLoginService` pool operations. -/
def runOps (s : Pool) (ops : List PoolOp) : Pool :=
  ops.foldl applyOp s

/-- Effect of one operation on the pool state of `ProfileManager`. -/
def pmApplyOp (s : Pool) (op : PoolOp) : Pool :=
  match op with
  | .start pid providerOk info => (pmStartProfile s pid providerOk info).pool
  | .stop pid providerOk => (stopProfile s pid providerOk).pool

/-- Run a sequence of `ProfileManager` pool operations. -/
def pmRunOps (s : Pool) (ops : List PoolOp) : Pool :=
  ops.foldl pmApplyOp s

/-- Sample connection info used for concrete instantiations. -/
def sampleInfo : ProfileInfo :=
  ⟨some "ws", some 3500, 0⟩

end GoLoginPool

namespace Retry

/-- Exception kinds observable at the retry wrapper (retry.py). The first three
are httpx exceptions: `httpx.TimeoutException` and `httpx.ConnectError` are
transport-level errors, and `httpx.HTTPStatusError` is what `raise_for_status`
raises for a 4xx/5xx response; all three are subclasses of `httpx.HTTPError`.
`goLoginAPIError` models the application-level `GoLoginAPIException`, which
subclasses the repo's own `InfrastructureException`, not any httpx class. -/
inductive ExcKind
  | timeoutExc
  | connectError
  | statusError (code : Nat)
  | goLoginAPIError (code : Nat)
  | otherExc
deriving Repr, DecidableEq

/-- Membership in the `httpx.HTTPError` class hierarchy: `TimeoutException` and
`ConnectError` derive from `RequestError < HTTPError`, and `HTTPStatusError`
derives from `HTTPError` directly. -/
def isHttpxHTTPError : ExcKind → Bool
  | .timeoutExc => true
  | .connectError => true
  | .statusError _ => true
  | _ => false

/-- Membership in `httpx.TimeoutException`. -/
def isHttpxTimeout : ExcKind → Bool
  | .timeoutExc => true
  | _ => false

/-- The retry predicate of `GOLOGIN_RETRY` (retry.py lines 18-23):
`retry_if_exception_type((httpx.HTTPError, httpx.TimeoutException))`. -/
def gologinShouldRetry (e : ExcKind) : Bool :=
  isHttpxHTTPError e || isHttpxTimeout e

/-- Tenacity retry loop with `reraise=True`: `f k` is the outcome of the `k`-th
underlying call (numbered from 1), `remaining` counts the attempts still allowed
after the current one. Returns the final outcome together with the number of
underlying calls made. On the last allowed attempt the outcome is propagated
as-is; earlier, a raised exception is retried iff the predicate accepts it,
and otherwise propagated immediately. -/
def tenacityGo (shouldRetry : ExcKind → Bool) (f : Nat → Except ExcKind α)
    (k : Nat) : Nat → Except ExcKind α × Nat
  | 0 => (f k, k)
  | n + 1 =>
    match f k with
    | .ok v => (.ok v, k)
    | .error e =>
      if shouldRetry e then tenacityGo shouldRetry f (k + 1) n
      else (.error e, k)

/-- `GOLOGIN_RETRY` applied to a call: `stop_after_attempt(3)` with the
`GOLOGIN_RETRY` predicate. -/
def gologinRetryRun (f : Nat → Except ExcKind α) : Except ExcKind α × Nat :=
  tenacityGo gologinShouldRetry f 1 2

/-- The `retry_gologin_api` decorator (retry.py lines 38-52): run the call under
`GOLOGIN_RETRY`; any exception escaping the retry loop is converted into
`GoLoginAPIException(500, "GoLogin API retry exhausted: ...")`. -/
def retryGologinApi (f : Nat → Except ExcKind α) : Except ExcKind α × Nat :=
  match gologinRetryRun f with
  | (.ok v, n) => (.ok v, n)
  | (.error _, n) => (.error (.goLoginAPIError 500), n)

end Retry

namespace Ledger

/-- Status values an `AuthorizationSession.status` column takes in the source:
`"pending"` (models.py default), `"success"`/`"error"` (routes.py), `"timeout"`
(cleanup_worker.py) and `"revoked"` (authorization.py). -/
inductive SStatus
  | pending
  | success
  | sessionError
  | timeout
  | revoked
deriving Repr, DecidableEq

/-- The terminal statuses: everything except `pending`. -/
def SStatus.isTerminal : SStatus → Bool
  | .pending => false
  | _ => true

/-- The fields of an `AuthorizationSession` row relevant to its lifecycle
(models.py lines 19-32); times are seconds since the epoch. -/
structure SessionRow where
  status : SStatus
  startedAt : Int
  completedAt : Option Int
  errorMessage : Option String
deriving Repr, DecidableEq

/-- A freshly inserted row (routes.py lines 91-97): `status="pending"`,
`started_at` from the server default, `completed_at`/`error_message` null. -/
def newSession (t : Int) : SessionRow :=
  ⟨.pending, t, none, none⟩

/-- The net effect of `authorize_account` (routes.py lines 99-197) on its session
row: the try block sets `status` to the automator result's status — which
`ProfileAutomator.authorize_account` only ever reports as `"success"` or
`"error"` — or the except blocks set it to `"error"`; the error branches also
record a message; the `finally` block sets `completed_at` on every path. -/
def orchestratorComplete (s : SessionRow) (ok : Bool) (now : Int) (msg : String) :
    SessionRow :=
  { s with
    status := if ok then .success else .sessionError,
    errorMessage := if ok then s.errorMessage else some msg,
    completedAt := some now }

/-- Session age threshold of the cleanup worker (`session_timeout_hours = 2`). -/
def sessionTimeoutHours : Int := 2

/-- Treatment of one row by `CleanupWorker._cleanup_iteration` (cleanup_worker.py
lines 61-101): rows matching `status == "pending" AND started_at < cutoff_time`
(with `cutoff_time = start_time - timedelta(hours=2)`) are set to `"timeout"`
with an error message and `completed_at = start_time`; all other rows are left
untouched. -/
def cleanupSession (now : Int) (s : SessionRow) : SessionRow :=
  if s.status = .pending ∧ s.startedAt < now - sessionTimeoutHours * 3600 then
    { s with
      status := .timeout,
      errorMessage := some "Session timed out after 2 hours",
      completedAt := some now }
  else s

/-- One cleanup iteration over the whole table. -/
def cleanupIteration (now : Int) (sessions : List SessionRow) : List SessionRow :=
  sessions.map (cleanupSession now)

/-- The effect of `AuthorizationService.revoke_authorization` (authorization.py
lines 183-200) on the row it selects: the query filters on `status == "success"`,
and when the external revoke call succeeds the row's status becomes `"revoked"`
(tokens cleared, `completed_at` untouched); otherwise the row is unchanged. -/
def revokeSession (s : SessionRow) (revokeOk : Bool) : SessionRow :=
  if s.status = .success ∧ revokeOk then { s with status := .revoked } else s

/-- One lifecycle event applied to a session row after its creation. -/
inductive LedgerOp
  | complete (ok : Bool) (now : Int) (msg : String)
  | cleanup (now : Int)
  | revoke (revokeOk : Bool)
deriving Repr, DecidableEq

/-- Apply one lifecycle event. -/
def applyLedgerOp (s : SessionRow) (op : LedgerOp) : SessionRow :=
  match op with
  | .complete ok now msg => orchestratorComplete s ok now msg
  | .cleanup now => cleanupSession now s
  | .revoke revokeOk => revokeSession s revokeOk

/-- Run a sequence of lifecycle events on a row. -/
def runLedger (s : SessionRow) (ops : List LedgerOp) : SessionRow :=
  ops.foldl applyLedgerOp s

/-- The C5 invariant: `completed_at` is set iff `status` is terminal. -/
def completedIffTerminal (s : SessionRow) : Prop :=
  s.completedAt.isSome = s.status.isTerminal

end Ledger

namespace Challenge

/-- Decision record returned by the challenge-recovery handler, mirroring the
keys the tests read: `success`, `should_terminate`, `requires_restart`,
`requires_manual_intervention`. -/
structure RecoveryResult where
  success : Bool
  shouldTerminate : Bool
  requiresRestart : Bool
  requiresManualIntervention : Bool
deriving Repr, DecidableEq

/-- Sliding window of the challenge counter, in seconds (spec §4.5: "a rolling
window, e.g. 10 minutes"). -/
def challengeWindowSeconds : Int := 600

/-- Challenge-count threshold at which the session is terminated (spec §4.5 and
`test_integrated_handler_termination`, which supplies exactly 3 in-window
timestamps and expects termination). -/
def challengeThreshold : Nat := 3

/-- Modelled from the spec: `IntegratedCloudflareProxyHandler.handle_persistent_challenge`
of `app/services/gologin/proxy_updater.py`, which is not among the provided
sources (only `src/tests/services/gologin/test_proxy_updater.py` is). Behavior
per spec §4.5 and the tests: timestamps older than the rolling window are
discarded; if the in-window challenge count reaches the threshold the handler
signals termination (`success=false, should_terminate=true`); below the
threshold it requests a proxy rotation and applies it to the profile — on a
successful rotation and profile update it signals `success=true,
requires_restart=true`, and on a successful rotation whose profile update fails
it signals `success=false, requires_manual_intervention=true`. -/
def handlePersistentChallenge (now : Int) (history : List Int)
    (rotationOk updateOk : Bool) : RecoveryResult :=
  if challengeThreshold ≤
      (history.filter (fun t => now - t ≤ challengeWindowSeconds)).length then
    ⟨false, true, false, false⟩
  else if rotationOk then
    if updateOk then ⟨true, false, true, false⟩
    else ⟨false, false, false, true⟩
  else ⟨false, false, false, false⟩

end Challenge

namespace Monitor

/-- A JSON-ish value supplied for a threshold: a number or a non-numeric value
(anything failing `isinstance(value, (int, float))`). -/
inductive TVal
  | num (q : ℚ)
  | nonNum (s : String)
deriving Repr, DecidableEq

/-- Validation applied per key in `update_thresholds`:
`isinstance(value, (int, float)) and value > 0`. -/
def TVal.isValidThreshold : TVal → Bool
  | .num q => decide (0 < q)
  | .nonNum _ => false

/-- The mutable `alert_thresholds` mapping of `MonitorWorker`, as an association
list in insertion order. -/
abbrev Thresholds := List (String × ℚ)

/-- The defaults set in `MonitorWorker.__init__` (monitor_worker.py lines 28-33). -/
def defaultThresholds : Thresholds :=
  [("failed_auth_rate", (1 : ℚ) / 2),
   ("memory_usage_percent", 85),
   ("pending_sessions_max", 100),
   ("response_time_max_seconds", 30)]

/-- Key membership: `key in self.alert_thresholds`. -/
def hasKey (t : Thresholds) (k : String) : Bool :=
  t.any (fun e => e.1 == k)

/-- In-place update of one known key: `self.alert_thresholds[key] = value`. -/
def setKey (t : Thresholds) (k : String) (v : ℚ) : Thresholds :=
  t.map (fun e => if e.1 == k then (e.1, v) else e)

/-- Result of `update_thresholds`: the thresholds left in place and whether the
call reported `status: success` (`ok = true`) or `status: error`. -/
structure UpdateResult where
  thresholds : Thresholds
  ok : Bool
deriving Repr, DecidableEq

/-- `MonitorWorker.update_thresholds` (monitor_worker.py lines 224-255): iterate
the input pairs in order; keys absent from `alert_thresholds` are skipped
silently; a known key with a positive numeric value is applied immediately; a
known key with a non-positive or non-numeric value raises `ValueError`, which
the surrounding `try` converts into an error status — updates applied before
the bad key stay in effect, since the dict was mutated in place. -/
def updateThresholds (t : Thresholds) : List (String × TVal) → UpdateResult
  | [] => ⟨t, true⟩
  | (k, v) :: rest =>
    if hasKey t k then
      match v with
      | .num q =>
        if 0 < q then updateThresholds (setKey t k q) rest else ⟨t, false⟩
      | .nonNum _ => ⟨t, false⟩
    else updateThresholds t rest

end Monitor

namespace GoLoginPool

theorem applyOp_maxConcurrent (s : Pool) (op : PoolOp) :
    (applyOp s op).maxConcurrent = s.maxConcurrent := by
  cases op with
  | start pid providerOk info =>
    simp only [applyOp, startProfile]
    cases h : s.lookup pid with
    | some existing => rfl
    | none =>
      by_cases hcap : s.maxConcurrent ≤ s.active.length
      · simp [hcap]
      · by_cases hok : providerOk <;> simp [hcap, hok]
  | stop pid providerOk =>
    simp only [applyOp, stopProfile]
    by_cases hact : s.isActive pid
    · by_cases hok : providerOk <;> simp [hact, hok]
    · simp [hact]

theorem applyOp_count_le (s : Pool) (op : PoolOp)
    (h : s.activeCount ≤ s.maxConcurrent) :
    (applyOp s op).activeCount ≤ s.maxConcurrent := by
  cases op with
  | start pid providerOk info =>
    simp only [applyOp, startProfile]
    cases hl : s.lookup pid with
    | some existing => exact h
    | none =>
      by_cases hcap : s.maxConcurrent ≤ s.active.length
      · simpa [hcap] using h
      · by_cases hok : providerOk
        · simp only [hcap, hok, if_true, if_false, Pool.activeCount,
            List.length_append, List.length_singleton]
          omega
        · simpa [hcap, hok] using h
  | stop pid providerOk =>
    simp only [applyOp, stopProfile]
    by_cases hact : s.isActive pid
    · by_cases hok : providerOk
      · simp only [hact, hok, if_true, Pool.activeCount]
        exact le_trans (List.length_filter_le _ _) h
      · simpa [hact, hok] using h
    · simpa [hact] using h

theorem runOps_invariant (s : Pool) (ops : List PoolOp)
    (h : s.activeCount ≤ s.maxConcurrent) :
    (runOps s ops).activeCount ≤ (runOps s ops).maxConcurrent := by
  induction ops generalizing s with
  | nil => exact h
  | cons op rest ih =>
    have hstep : (applyOp s op).activeCount ≤ (applyOp s op).maxConcurrent := by
      rw [applyOp_maxConcurrent]
      exact applyOp_count_le s op h
    exact ih (applyOp s op) hstep

theorem runOps_maxConcurrent (s : Pool) (ops : List PoolOp) :
    (runOps s ops).maxConcurrent = s.maxConcurrent := by
  induction ops generalizing s with
  | nil => rfl
  | cons op rest ih =>
    calc (runOps (applyOp s op) rest).maxConcurrent
        = (applyOp s op).maxConcurrent := ih (applyOp s op)
      _ = s.maxConcurrent := applyOp_maxConcurrent s op

theorem isActive_filter_self (l : List (String × ProfileInfo)) (pid : String) :
    (l.filter (fun e => !(e.1 == pid))).any (fun e => e.1 == pid) = false := by
  induction l with
  | nil => rfl
  | cons e rest ih =>
    by_cases h : e.1 == pid
    · simp [List.filter_cons, h, ih]
    · simp [List.filter_cons, h, ih]

/-- C1 (counterexample): with `max_concurrent_profiles = 1`, two successive
`ProfileManager.start_profile` calls for distinct, not-yet-active profiles both
succeed (the method performs no capacity check before inserting), leaving
`len(active_profiles) = 2 > 1`: the active-lease count does exceed the
configured capacity. -/
theorem C1_counterexample :
    ¬ ((pmRunOps (initPool 1)
          [.start "a" true sampleInfo, .start "b" true sampleInfo]).activeCount
        ≤ (initPool 1).maxConcurrent) := by
  decide

/-- C1 (amended): for every sequence of serialized `start_profile`/`stop_profile`
calls on `GoLoginService` — whose `start_profile` checks
`len(active_profiles) >= max_concurrent` before inserting — the active-profile
count never exceeds the configured capacity; `ProfileManager.start_profile`,
lacking that check, does not maintain this bound. -/
theorem C1_gologin_capacity_invariant (cap : Nat) (ops : List PoolOp) :
    (runOps (initPool cap) ops).activeCount ≤ cap := by
  have h := runOps_invariant (initPool cap) ops
    (by simp [initPool, Pool.activeCount])
  rwa [runOps_maxConcurrent] at h

/-- C2 (counterexample): `GoLoginService.start_profile` has a single variant, and
at capacity (here `max_concurrent = 1` with one active profile) a request for a
not-yet-active profile raises `ConcurrentProfileLimitException` instead of
blocking until a slot frees. -/
theorem C2_counterexample :
    Pool.isActive ⟨1, [("a", sampleInfo)]⟩ "b" = false ∧
    Pool.activeCount ⟨1, [("a", sampleInfo)]⟩ = 1 ∧
    (startProfile ⟨1, [("a", sampleInfo)]⟩ "b" true sampleInfo).result =
      .limitError := by
  refine ⟨by decide, by decide, by decide⟩

/-- C2 (amended): whenever the pool is at (or beyond) capacity and the requested
profile is not already active, `GoLoginService.start_profile` raises
`ConcurrentProfileLimitException` without issuing a provider call or changing the
pool — the capacity error is raised by this (the only) variant, which does not
block. -/
theorem C2_capacity_error_raised (s : Pool) (pid : String) (providerOk : Bool)
    (info : ProfileInfo) (hnot : s.lookup pid = none)
    (hcap : s.maxConcurrent ≤ s.activeCount) :
    startProfile s pid providerOk info = ⟨s, .limitError, 0⟩ := by
  simp only [Pool.activeCount] at hcap
  simp [startProfile, hnot, hcap]

theorem C2_capacity_error_raised_witness :
    startProfile ⟨1, [("a", sampleInfo)]⟩ "b" true sampleInfo =
      ⟨⟨1, [("a", sampleInfo)]⟩, .limitError, 0⟩ :=
  C2_capacity_error_raised ⟨1, [("a", sampleInfo)]⟩ "b" true sampleInfo
    (by decide) (by decide)

/-- C3 (counterexample): with profile `"p"` active and the provider stop call
failing, `stop_profile` returns `False` but `"p"` is still in `active_profiles`
afterwards — the entry is not removed from local bookkeeping, because the `del`
sits inside the `try` block before the `except` that returns `False`. -/
theorem C3_counterexample :
    (stopProfile ⟨1, [("p", sampleInfo)]⟩ "p" false).result = false ∧
    (stopProfile ⟨1, [("p", sampleInfo)]⟩ "p" false).pool.isActive "p" = true := by
  refine ⟨by decide, by decide⟩

/-- C3 (amended): when `stop_profile` is called on an active profile and the
provider stop call fails, it returns `False` and leaves the pool unchanged —
in particular the entry remains in `active_profiles`; the entry is removed only
on a successful stop. -/
theorem C3_failed_stop_keeps_entry (s : Pool) (pid : String)
    (hact : s.isActive pid = true) :
    stopProfile s pid false = ⟨s, false, 1⟩ := by
  simp [stopProfile, hact]

theorem C3_failed_stop_keeps_entry_witness :
    stopProfile ⟨1, [("p", sampleInfo)]⟩ "p" false =
      ⟨⟨1, [("p", sampleInfo)]⟩, false, 1⟩ :=
  C3_failed_stop_keeps_entry ⟨1, [("p", sampleInfo)]⟩ "p" (by decide)

/-- C7: `start_profile` is idempotent for an already-active profile — whenever
`profile_id` is in `active_profiles`, the call returns the stored record, issues
no provider start call, and leaves the pool unchanged. -/
theorem C7_start_idempotent (s : Pool) (pid : String) (providerOk : Bool)
    (info existing : ProfileInfo) (h : s.lookup pid = some existing) :
    startProfile s pid providerOk info = ⟨s, .ok existing, 0⟩ := by
  simp [startProfile, h]

theorem C7_start_idempotent_witness :
    startProfile ⟨2, [("a", sampleInfo)]⟩ "a" true ⟨none, none, 5⟩ =
      ⟨⟨2, [("a", sampleInfo)]⟩, .ok sampleInfo, 0⟩ :=
  C7_start_idempotent ⟨2, [("a", sampleInfo)]⟩ "a" true ⟨none, none, 5⟩
    sampleInfo (by decide)

/-- C8: `stop_profile` is idempotent — for every pool state and profile id, with
the provider stop succeeding when issued, the first call returns `True`, and the
second call is a complete no-op that returns `True` while issuing no provider
stop call (this is exactly the behavior of releasing a non-active id). -/
theorem C8_release_idempotent (s : Pool) (pid : String) :
    (stopProfile s pid true).result = true ∧
    stopProfile (stopProfile s pid true).pool pid true =
      ⟨(stopProfile s pid true).pool, true, 0⟩ := by
  by_cases hact : s.isActive pid
  · have hgone :
        ({ s with active := s.active.filter (fun e => !(e.1 == pid)) } :
          Pool).isActive pid = false := by
      simp only [Pool.isActive]
      exact isActive_filter_self s.active pid
    constructor
    · simp [stopProfile, hact]
    · simp [stopProfile, hact, hgone]
  · constructor
    · simp [stopProfile, hact]
    · simp [stopProfile, hact]

end GoLoginPool

namespace Retry

theorem tenacityGo_zero (s : ExcKind → Bool) (f : Nat → Except ExcKind α) (k : Nat) :
    tenacityGo s f k 0 = (f k, k) := rfl

theorem tenacityGo_succ (s : ExcKind → Bool) (f : Nat → Except ExcKind α)
    (k n : Nat) :
    tenacityGo s f k (n + 1) =
      match f k with
      | .ok v => (.ok v, k)
      | .error e =>
        if s e then tenacityGo s f (k + 1) n else (.error e, k) := rfl

/-- C4 (counterexample): a call wrapped by `retry_gologin_api` that fails with an
httpx 4xx `HTTPStatusError` on every attempt makes 3 underlying calls, not 1:
`HTTPStatusError` is a subclass of `httpx.HTTPError`, which the `GOLOGIN_RETRY`
predicate `retry_if_exception_type((httpx.HTTPError, httpx.TimeoutException))`
accepts, so 4xx application errors are retried. -/
theorem C4_counterexample :
    (retryGologinApi (α := Nat) (fun _ => .error (.statusError 404))).2 = 3 ∧
    (retryGologinApi (α := Nat) (fun _ => .error (.statusError 404))).2 ≠ 1 := by
  refine ⟨rfl, by decide⟩

/-- C4 (amended): under `retry_gologin_api`, a call failing with transport-level
errors (timeout, connection error) on the first two attempts and succeeding on
the third returns the success value having made exactly 3 underlying calls; but
the retry predicate accepts every `httpx.HTTPError` — including the
`HTTPStatusError` raised for a 4xx response — so a persistent 4xx also makes 3
underlying calls; exactly 1 call happens only for exceptions outside the
predicate, such as the application-level `GoLoginAPIException` the service
methods convert their httpx errors into (which the wrapper re-raises as
`GoLoginAPIException(500, ...)`). -/
theorem C4_retry_classification (α : Type) (v : α)
    (f g h : Nat → Except ExcKind α)
    (hf1 : f 1 = .error .timeoutExc)
    (hf2 : f 2 = .error .connectError)
    (hf3 : f 3 = .ok v)
    (hg : ∀ k, g k = .error (.statusError 404))
    (hh1 : h 1 = .error (.goLoginAPIError 400)) :
    retryGologinApi f = (.ok v, 3) ∧
    (retryGologinApi g).2 = 3 ∧
    retryGologinApi h = (.error (.goLoginAPIError 500), 1) := by
  refine ⟨?_, ?_, ?_⟩
  · have e1 : gologinRetryRun f = (.ok v, 3) := by
      show tenacityGo gologinShouldRetry f 1 (1 + 1) = (.ok v, 3)
      rw [tenacityGo_succ, hf1]
      simp only [gologinShouldRetry, isHttpxHTTPError, isHttpxTimeout,
        Bool.true_or, if_true]
      show tenacityGo gologinShouldRetry f 2 (0 + 1) = (.ok v, 3)
      rw [tenacityGo_succ, hf2]
      simp only [gologinShouldRetry, isHttpxHTTPError, isHttpxTimeout,
        Bool.true_or, if_true]
      rw [tenacityGo_zero, hf3]
    simp [retryGologinApi, e1]
  · have e1 : gologinRetryRun g = (.error (.statusError 404), 3) := by
      show tenacityGo gologinShouldRetry g 1 (1 + 1) = _
      rw [tenacityGo_succ, hg 1]
      simp only [gologinShouldRetry, isHttpxHTTPError, isHttpxTimeout,
        Bool.true_or, if_true]
      show tenacityGo gologinShouldRetry g 2 (0 + 1) = _
      rw [tenacityGo_succ, hg 2]
      simp only [gologinShouldRetry, isHttpxHTTPError, isHttpxTimeout,
        Bool.true_or, if_true]
      rw [tenacityGo_zero, hg 3]
    simp [retryGologinApi, e1]
  · have e1 : gologinRetryRun h = (.error (.goLoginAPIError 400), 1) := by
      show tenacityGo gologinShouldRetry h 1 (1 + 1) = _
      rw [tenacityGo_succ, hh1]
      simp [gologinShouldRetry, isHttpxHTTPError, isHttpxTimeout]
    simp [retryGologinApi, e1]

theorem C4_retry_classification_witness :
    retryGologinApi
        (fun k => if k = 1 then .error .timeoutExc
                  else if k = 2 then .error .connectError
                  else .ok 7) = (.ok 7, 3) ∧
    (retryGologinApi (α := Nat) (fun _ => .error (.statusError 404))).2 = 3 ∧
    retryGologinApi (α := Nat) (fun _ => .error (.goLoginAPIError 400)) =
      (.error (.goLoginAPIError 500), 1) :=
  C4_retry_classification Nat 7
    (fun k => if k = 1 then .error .timeoutExc
              else if k = 2 then .error .connectError
              else .ok 7)
    (fun _ => .error (.statusError 404))
    (fun _ => .error (.goLoginAPIError 400))
    rfl rfl rfl (fun _ => rfl) rfl

end Retry

namespace Ledger

theorem applyLedgerOp_preserves (s : SessionRow) (op : LedgerOp)
    (h : completedIffTerminal s) : completedIffTerminal (applyLedgerOp s op) := by
  cases op with
  | complete ok now msg =>
    cases ok <;>
      simp [applyLedgerOp, orchestratorComplete, completedIffTerminal,
        SStatus.isTerminal]
  | cleanup now =>
    simp only [applyLedgerOp, cleanupSession]
    by_cases hc : s.status = .pending ∧ s.startedAt < now - sessionTimeoutHours * 3600
    · simp [hc, completedIffTerminal, SStatus.isTerminal]
    · simpa [hc] using h
  | revoke revokeOk =>
    simp only [applyLedgerOp, revokeSession]
    by_cases hc : s.status = .success ∧ revokeOk = true
    · have hsome : s.completedAt.isSome = true := by
        rw [completedIffTerminal, hc.1] at h
        exact h
      simp [hc, completedIffTerminal, SStatus.isTerminal, hsome]
    · simpa [hc] using h

theorem runLedger_preserves (s : SessionRow) (ops : List LedgerOp)
    (h : completedIffTerminal s) : completedIffTerminal (runLedger s ops) := by
  induction ops generalizing s with
  | nil => exact h
  | cons op rest ih => exact ih (applyLedgerOp s op) (applyLedgerOp_preserves s op h)

/-- C5: for every `AuthorizationSession` row and every reachable sequence of
lifecycle transitions — creation as `pending` (routes.py), orchestrator
success/error completion (routes.py try/except/finally), cleanup-worker timeout
(cleanup_worker.py), and revocation (authorization.py) — `completed_at` is set
if and only if `status` is one of the terminal states success, error, timeout,
revoked. -/
theorem C5_completed_iff_terminal (t : Int) (ops : List LedgerOp) :
    completedIffTerminal (runLedger (newSession t) ops) :=
  runLedger_preserves (newSession t) ops rfl

/-- Concrete rows exercising the three cleanup cases: a stale pending row, a
fresh pending row, and a completed row. -/
def c6rows : List SessionRow :=
  [⟨.pending, 0, none, none⟩, ⟨.pending, 9000, none, none⟩,
   ⟨.success, 0, some 5, none⟩]

/-- C6: one `_cleanup_iteration` maps each row as follows — a `pending` row whose
`started_at` is older than the 2-hour cutoff becomes `timeout` with
`completed_at` and an error message set (all other fields kept), a `pending` row
at or younger than the cutoff is unchanged, and a non-`pending` row is
unchanged. -/
theorem C6_cleanup_iteration (now : Int) (ss : List SessionRow) (i : Nat)
    (hi : i < ss.length) (hj : i < (cleanupIteration now ss).length) :
    ((ss.get ⟨i, hi⟩).status = .pending ∧
        (ss.get ⟨i, hi⟩).startedAt < now - sessionTimeoutHours * 3600 →
      (cleanupIteration now ss).get ⟨i, hj⟩ =
        { ss.get ⟨i, hi⟩ with
          status := .timeout,
          errorMessage := some "Session timed out after 2 hours",
          completedAt := some now }) ∧
    ((ss.get ⟨i, hi⟩).status = .pending ∧
        ¬ (ss.get ⟨i, hi⟩).startedAt < now - sessionTimeoutHours * 3600 →
      (cleanupIteration now ss).get ⟨i, hj⟩ = ss.get ⟨i, hi⟩) ∧
    ((ss.get ⟨i, hi⟩).status ≠ .pending →
      (cleanupIteration now ss).get ⟨i, hj⟩ = ss.get ⟨i, hi⟩) := by
  have hget : (cleanupIteration now ss).get ⟨i, hj⟩ =
      cleanupSession now (ss.get ⟨i, hi⟩) := by
    simp [cleanupIteration, List.get_eq_getElem, List.getElem_map]
  refine ⟨?_, ?_, ?_⟩
  · rintro ⟨h1, h2⟩
    rw [hget]
    unfold cleanupSession
    rw [if_pos ⟨h1, h2⟩]
  · rintro ⟨h1, h2⟩
    rw [hget]
    unfold cleanupSession
    rw [if_neg]
    rintro ⟨_, hlt⟩
    exact h2 hlt
  · intro h1
    rw [hget]
    unfold cleanupSession
    rw [if_neg]
    rintro ⟨hp, _⟩
    exact h1 hp

theorem C6_cleanup_iteration_witness :
    (0 < c6rows.length) ∧
    (0 < (cleanupIteration 10000 c6rows).length) ∧
    ((c6rows.get ⟨0, by decide⟩).status = .pending ∧
        (c6rows.get ⟨0, by decide⟩).startedAt < 10000 - sessionTimeoutHours * 3600 →
      (cleanupIteration 10000 c6rows).get ⟨0, by decide⟩ =
        { c6rows.get ⟨0, by decide⟩ with
          status := .timeout,
          errorMessage := some "Session timed out after 2 hours",
          completedAt := some 10000 }) ∧
    ((c6rows.get ⟨0, by decide⟩).status = .pending ∧
        ¬ (c6rows.get ⟨0, by decide⟩).startedAt < 10000 - sessionTimeoutHours * 3600 →
      (cleanupIteration 10000 c6rows).get ⟨0, by decide⟩ = c6rows.get ⟨0, by decide⟩) ∧
    ((c6rows.get ⟨0, by decide⟩).status ≠ .pending →
      (cleanupIteration 10000 c6rows).get ⟨0, by decide⟩ = c6rows.get ⟨0, by decide⟩) :=
  ⟨by decide, by decide, C6_cleanup_iteration 10000 c6rows 0 (by decide) (by decide)⟩

end Ledger

namespace Challenge

/-- C9: the challenge-recovery handler returns termination (`should_terminate =
true`, `success = false`) when 3 challenge timestamps fall within the sliding
window, regardless of rotation/update outcomes; with 1 in-window timestamp and a
successful rotation plus successful profile update it returns `success = true`
with `requires_restart = true`; with a successful rotation but a failed profile
update it returns `success = false` with `requires_manual_intervention = true`. -/
theorem C9_recovery_policy (now : Int) (hist3 hist1 : List Int)
    (rotationOk updateOk : Bool)
    (h3 : (hist3.filter (fun t => now - t ≤ challengeWindowSeconds)).length = 3)
    (h1 : (hist1.filter (fun t => now - t ≤ challengeWindowSeconds)).length = 1) :
    ((handlePersistentChallenge now hist3 rotationOk updateOk).shouldTerminate = true ∧
      (handlePersistentChallenge now hist3 rotationOk updateOk).success = false) ∧
    handlePersistentChallenge now hist1 true true = ⟨true, false, true, false⟩ ∧
    handlePersistentChallenge now hist1 true false = ⟨false, false, false, true⟩ := by
  have hcond3 : challengeThreshold ≤
      (hist3.filter (fun t => now - t ≤ challengeWindowSeconds)).length := by
    rw [h3]
    decide
  have hcond1 : ¬ challengeThreshold ≤
      (hist1.filter (fun t => now - t ≤ challengeWindowSeconds)).length := by
    rw [h1]
    decide
  refine ⟨?_, ?_, ?_⟩
  · constructor <;>
      · unfold handlePersistentChallenge
        rw [if_pos hcond3]
  · unfold handlePersistentChallenge
    rw [if_neg hcond1]
    rfl
  · unfold handlePersistentChallenge
    rw [if_neg hcond1]
    rfl

theorem C9_recovery_policy_witness :
    (([700, 800, 900].filter
        (fun t => (1000 : Int) - t ≤ challengeWindowSeconds)).length = 3) ∧
    (([900].filter
        (fun t => (1000 : Int) - t ≤ challengeWindowSeconds)).length = 1) ∧
    (((handlePersistentChallenge 1000 [700, 800, 900] true true).shouldTerminate = true ∧
       (handlePersistentChallenge 1000 [700, 800, 900] true true).success = false) ∧
     handlePersistentChallenge 1000 [900] true true = ⟨true, false, true, false⟩ ∧
     handlePersistentChallenge 1000 [900] true false = ⟨false, false, false, true⟩) :=
  ⟨by decide, by decide,
    C9_recovery_policy 1000 [700, 800, 900] [900] true true (by decide) (by decide)⟩

end Challenge

namespace Monitor

/-- C10: `update_thresholds` is non-atomic and ignores unknown keys — a key
absent from `alert_thresholds` is skipped without error and without touching the
state; a known key with a positive numeric value is applied immediately, with
processing continuing on the updated state; and a known key carrying a
non-positive or non-numeric value makes the call return an error status while
the thresholds accumulated so far (including updates applied earlier in the
iteration) remain in effect. -/
theorem C10_update_thresholds (t : Thresholds) (k1 k2 k3 : String)
    (v : TVal) (q : ℚ) (rest : List (String × TVal))
    (hunknown : hasKey t k1 = false)
    (hknown2 : hasKey t k2 = true) (hq : 0 < q)
    (hknown3 : hasKey t k3 = true) (hbad : v.isValidThreshold = false) :
    updateThresholds t ((k1, v) :: rest) = updateThresholds t rest ∧
    updateThresholds t ((k2, .num q) :: rest) =
      updateThresholds (setKey t k2 q) rest ∧
    updateThresholds t ((k3, v) :: rest) = ⟨t, false⟩ := by
  refine ⟨?_, ?_, ?_⟩
  · simp [updateThresholds, hunknown]
  · simp [updateThresholds, hknown2, hq]
  · cases v with
    | num q2 =>
      have hneg : ¬ (0 < q2) := by
        simpa [TVal.isValidThreshold] using hbad
      simp [updateThresholds, hknown3, hneg]
    | nonNum s => simp [updateThresholds, hknown3]

theorem C10_update_thresholds_witness :
    (hasKey defaultThresholds "bogus_key" = false) ∧
    (hasKey defaultThresholds "memory_usage_percent" = true) ∧
    ((0 : ℚ) < 90) ∧
    (hasKey defaultThresholds "failed_auth_rate" = true) ∧
    (TVal.isValidThreshold (.num (-1)) = false) ∧
    (updateThresholds defaultThresholds [("bogus_key", .num (-1))] =
        updateThresholds defaultThresholds [] ∧
      updateThresholds defaultThresholds [("memory_usage_percent", .num 90)] =
        updateThresholds (setKey defaultThresholds "memory_usage_percent" 90) [] ∧
      updateThresholds defaultThresholds [("failed_auth_rate", .num (-1))] =
        ⟨defaultThresholds, false⟩) :=
  ⟨by decide, by decide, by decide, by decide, by decide,
    C10_update_thresholds defaultThresholds "bogus_key" "memory_usage_percent"
      "failed_auth_rate" (.num (-1)) 90 []
      (by decide) (by decide) (by decide) (by decide) (by decide)⟩

end Monitor
